import Mathlib

/-!
Shallow embedding of the `ArmController` of baxter_tictactoe: the pose /
proximity trackers, the goal-reaching poll loop, the behavior sequencer and
the grid mapper.  The repository ships only the class declarations
(`src/unnamed/part_000` and `src/src/arm_controller/arm_controller.h`); the
member-function bodies are not part of the source tree, so every operation
below is modelled from the description the specification gives of it, as flagged in
each doc comment.  Scalars are modelled as exact rationals.
-/

/-- End-effector pose: position (x, y, z) plus a 4-component orientation
quaternion, as `geometry_msgs::Pose` carries and as §3 of the spec
describes. -/
structure Pose where
  px : ℚ
  py : ℚ
  pz : ℚ
  ox : ℚ
  oy : ℚ
  oz : ℚ
  ow : ℚ
deriving DecidableEq, Repr

/-- Modelled from the spec: `equalTwoDP` (body missing from src/, declared at
part_000 line 122 with the doc "true if they are equal up to 2 decimal
points") — two scalars are equal at two-decimal-place precision when they
round to the same value at 2 decimal digits, i.e. `round (100*x)` equals
`round (100*y)`. -/
def equalTwoDP (x y : ℚ) : Bool :=
  decide (round (100 * x) = round (100 * y))

/-- Modelled from the spec: `hasPoseCompleted` (body missing from src/,
declared at part_000 line 110) — the requested pose and the current measured
pose match when every position and orientation component is `equalTwoDP`. -/
def hasPoseCompleted (req curr : Pose) : Bool :=
  equalTwoDP req.px curr.px && equalTwoDP req.py curr.py &&
  equalTwoDP req.pz curr.pz && equalTwoDP req.ox curr.ox &&
  equalTwoDP req.oy curr.oy && equalTwoDP req.oz curr.oz &&
  equalTwoDP req.ow curr.ow

/-- Spec-words comparison for refinement checking only: "component-wise
equality with tolerance 0.005" read literally as |x - y| ≤ 0.005.  This is
the alternative reading of the tolerance parenthetical of the spec, kept separate
from `equalTwoDP` so the two readings can be compared. -/
def withinTol (x y : ℚ) : Bool :=
  decide (|x - y| ≤ 5 / 1000)

/-- Spec-words pose comparison built from `withinTol`, the literal
"tolerance 0.005" reading of the POSE convergence condition of the spec. -/
def poseMatchTol (req curr : Pose) : Bool :=
  withinTol req.px curr.px && withinTol req.py curr.py &&
  withinTol req.pz curr.pz && withinTol req.ox curr.ox &&
  withinTol req.oy curr.oy && withinTol req.oz curr.oz &&
  withinTol req.ow curr.ow

/-- Spec §8 names the pose-match predicate `posesMatch`; it is the
`hasPoseCompleted` comparison applied to a requested and a measured pose. -/
def posesMatch (P M : Pose) : Bool :=
  hasPoseCompleted P M

/-- Modelled from the spec: one proximity sample of the IR range sensor, a
scalar distance plus the validity bounds of the sensor, mirroring the fields
`curr_range`, `curr_min_range`, `curr_max_range` of part_000 lines 62-64
(the callback bodies are missing from src/). -/
structure RangeMsg where
  range : ℚ
  min_range : ℚ
  max_range : ℚ
deriving DecidableEq, Repr

/-- State of the Proximity Tracker: the most recent sample, or `none` before
any sample has arrived. -/
abbrev IRState := Option RangeMsg

/-- Modelled from the spec: `IRCallback` (body missing from src/) overwrites
the stored triple with each new sample; no history is retained. -/
def onRangeSample (_st : IRState) (m : RangeMsg) : IRState :=
  some m

/-- Feed a whole list of samples to the Proximity Tracker in order. -/
def applySamples (st : IRState) (ms : List RangeMsg) : IRState :=
  ms.foldl onRangeSample st

/-- Modelled from the spec: `hasCollided` (body missing from src/, declared
at part_000 line 112) — true iff the most recent distance is valid (within
[min, max]) and below the configured collision threshold
(`IR_RANGE_THRESHOLD`); before any sample arrives it reports no collision. -/
def hasCollided (st : IRState) (thr : ℚ) : Bool :=
  match st with
  | none => false
  | some m =>
      decide (m.min_range ≤ m.range) && decide (m.range ≤ m.max_range) &&
      decide (m.range < thr)

/-- Goal kinds, from part_000 line 36: POSE goals end on pose convergence,
COLLISION goals also end on a proximity-threshold trip. -/
inductive goalType where
  | POSE
  | COLLISION
deriving DecidableEq, Repr

/-- Terminal states of one goal-reach attempt (spec §4.3): reached, polling
budget exhausted, or the IK service found no solution (`UnreachablePose`). -/
inductive ReachResult where
  | SATISFIED
  | TIMED_OUT
  | IK_FAILED
deriving DecidableEq, Repr

/-- Joint angles returned by the IK service, ordered shoulder to wrist. -/
abbrev JointAngles := List ℚ

/-- Environment of one goal-reach attempt: the IK service (`getJointAngles`,
`none` when the service reports no solution), the measured pose the Pose
Tracker holds at each poll cycle, and the Proximity Tracker state at each
poll cycle. -/
structure Env where
  ik : Pose → Option JointAngles
  measured : ℕ → Pose
  ir : ℕ → IRState

/-- Modelled from the spec: the POLLING termination predicate of §4.3 — a
POSE goal is satisfied when the measured pose matches the requested one, a
COLLISION goal additionally when the proximity tracker reports
within-collision-threshold. -/
def terminationPred (g : goalType) (req : Pose) (thr : ℚ) (env : Env)
    (t : ℕ) : Bool :=
  match g with
  | goalType.POSE => hasPoseCompleted req (env.measured t)
  | goalType.COLLISION =>
      hasPoseCompleted req (env.measured t) || hasCollided (env.ir t) thr

/-- Poll `pred` starting at cycle `t` with `fuel` cycles remaining; return
the first cycle at which `pred` holds, or `none` when the budget runs out. -/
def pollAux (pred : ℕ → Bool) : ℕ → ℕ → Option ℕ
  | 0, _ => none
  | fuel + 1, t => if pred t then some t else pollAux pred fuel (t + 1)

/-- Outcome of one goal-reach attempt: the terminal state, how many poll
cycles ran, and the joint commands forwarded to `publishMoveCommand`. -/
structure ReachOutcome where
  result : ReachResult
  cyclesPolled : ℕ
  commandsIssued : List JointAngles
deriving DecidableEq, Repr

/-- Modelled from the spec: one goal-reach (§4.3) — REQUESTING_IK sends the
target pose to the IK service (IK_FAILED if no solution), COMMANDING
forwards the joint-angle vector to the command sink exactly once, POLLING
evaluates the termination predicate of the goal kind each cycle until it holds
(SATISFIED) or the cycle budget is exhausted (TIMED_OUT). -/
def reachGoal (env : Env) (g : goalType) (req : Pose) (thr : ℚ)
    (budget : ℕ) : ReachOutcome :=
  match env.ik req with
  | none => ⟨ReachResult.IK_FAILED, 0, []⟩
  | some ja =>
      match pollAux (terminationPred g req thr env) budget 0 with
      | some t => ⟨ReachResult.SATISFIED, t + 1, [ja]⟩
      | none => ⟨ReachResult.TIMED_OUT, budget, [ja]⟩

/-- Controller state visible across goal-reaches: the `req_pose_stamped`
member of the class (part_000 line 58). -/
structure ArmState where
  req_pose_stamped : Pose
deriving DecidableEq, Repr

/-- Modelled from the spec: a goal-reach as a state transformer on the
controller — the requested pose member is overwritten with the new target at
the start of the attempt (spec §3: owned by the Goal Reacher for the
duration of one goal-reach operation, discarded after), and the attempt
reads only that fresh value. -/
def reachGoalSt (_st : ArmState) (env : Env) (g : goalType) (req : Pose)
    (thr : ℚ) (budget : ℕ) : ArmState × ReachOutcome :=
  let st2 : ArmState := ⟨req⟩
  (st2, reachGoal env g st2.req_pose_stamped thr budget)

/-- One step of a behavior script: a Goal Reacher invocation or a gripper
actuation (`true` = activate / grip, `false` = deactivate / release). -/
inductive Step where
  | goal (g : goalType) (target : Pose)
  | gripper (activate : Bool)
deriving DecidableEq, Repr

/-- Observable event emitted while a behavior runs: a completed Goal Reacher
invocation with its terminal result, or a gripper actuation. -/
inductive Ev where
  | reach (g : goalType) (target : Pose) (res : ReachResult)
  | gripper (activate : Bool)
deriving DecidableEq, Repr

/-- Modelled from the spec: the step runner of the Behavior Sequencer (§4.4) —
each step blocks until its Goal Reacher invocation reaches a terminal state;
a non-SATISFIED terminal state aborts the remaining steps and surfaces the
failure (`false`) to the caller.  `envs i` is the environment the `i`-th
step runs in; the returned list is the event trace. -/
def runSteps (envs : ℕ → Env) (thr : ℚ) (budget : ℕ) :
    List Step → ℕ → Bool × List Ev
  | [], _ => (true, [])
  | Step.goal g p :: rest, i =>
      let o := reachGoal (envs i) g p thr budget
      if o.result = ReachResult.SATISFIED then
        let r := runSteps envs thr budget rest (i + 1)
        (r.1, Ev.reach g p o.result :: r.2)
      else
        (false, [Ev.reach g p o.result])
  | Step.gripper a :: rest, i =>
      let r := runSteps envs thr budget rest (i + 1)
      (r.1, Ev.gripper a :: r.2)

/-- Script of `moveToRest` (part_000 line 186): one POSE goal to the fixed
configured rest pose. -/
def moveToRestSteps (rest_pose : Pose) : List Step :=
  [Step.goal goalType.POSE rest_pose]

/-- Modelled from the spec: `moveToRest` (body missing from src/) — move the
spectator limb out of view with one POSE goal; blocking, returns
success/failure plus its event trace. -/
def moveToRest (envs : ℕ → Env) (thr : ℚ) (budget : ℕ)
    (rest_pose : Pose) : Bool × List Ev :=
  runSteps envs thr budget (moveToRestSteps rest_pose) 0

/-- Script of move-to-standby: one POSE goal to the fixed standby pose. -/
def moveToStandbySteps (standby_pose : Pose) : List Step :=
  [Step.goal goalType.POSE standby_pose]

/-- Modelled from the spec: move-to-standby (body missing from src/) — one
POSE goal to a fixed configured pose, used before and after a turn. -/
def moveToStandby (envs : ℕ → Env) (thr : ℚ) (budget : ℕ)
    (standby_pose : Pose) : Bool × List Ev :=
  runSteps envs thr budget (moveToStandbySteps standby_pose) 0

/-- Script of `pickUpToken` (part_000 line 175): POSE goal to hover above
the token stack (`hoverAboveTokens`), COLLISION goal descending toward the
stack (`gripToken`), activate the gripper, POSE goal back to hover. -/
def pickUpTokenSteps (hover grip_target : Pose) : List Step :=
  [Step.goal goalType.POSE hover,
   Step.goal goalType.COLLISION grip_target,
   Step.gripper true,
   Step.goal goalType.POSE hover]

/-- Modelled from the spec: `pickUpToken` (body missing from src/) — run the
pick-up script; blocking, returns success/failure plus its event trace. -/
def pickUpToken (envs : ℕ → Env) (thr : ℚ) (budget : ℕ)
    (hover grip_target : Pose) : Bool × List Ev :=
  runSteps envs thr budget (pickUpTokenSteps hover grip_target) 0

/-- Grid Mapper failure: the cell index is outside the valid board range
(spec §7, a precondition violation). -/
inductive GridError where
  | InvalidCellIndex
deriving DecidableEq, Repr

/-- Modelled from the spec: the fixed z coordinate of the "place" height the
Grid Mapper stamps on every cell pose (configuration-defined; the exact
value is irrelevant to the claims). -/
def PLACE_Z : ℚ := -1/10

/-- Modelled from the spec: the pure function of the Grid Mapper `cellPose` (§4.5,
the body behind `releaseToken` is missing from src/) — map a cell index of
the 3x3 board to a pose whose (x, y) is the configured board center
(`CENTER_X`, `CENTER_Y`) offset by (column-1, row-1) times the cell pitch
(`CELL_SIDE`), with fixed z and orientation; an index outside 0..8 is the
`InvalidCellIndex` precondition violation, not a pose. -/
def cellPose (cell_num : ℤ) (center_x center_y cell_side : ℚ) :
    Except GridError Pose :=
  if 0 ≤ cell_num ∧ cell_num < 9 then
    Except.ok ⟨center_x + (((cell_num % 3 : ℤ) : ℚ) - 1) * cell_side,
               center_y + (((cell_num / 3 : ℤ) : ℚ) - 1) * cell_side,
               PLACE_Z, 0, 0, 0, 1⟩
  else
    Except.error GridError.InvalidCellIndex

/-- Replace the z coordinate of a pose (used to form hover poses above a
board cell). -/
def withZ (p : Pose) (z : ℚ) : Pose :=
  ⟨p.px, p.py, z, p.ox, p.oy, p.oz, p.ow⟩

/-- Script of `placeToken` for a resolved cell pose: POSE goal hovering
above the cell, COLLISION goal descending onto it, release the gripper,
POSE goal back to hover. -/
def placeTokenSteps (hover place_target : Pose) : List Step :=
  [Step.goal goalType.POSE hover,
   Step.goal goalType.COLLISION place_target,
   Step.gripper false,
   Step.goal goalType.POSE hover]

/-- Modelled from the spec: `placeToken` (body missing from src/) — the Grid
Mapper converts the cell index to a pose, then the place script runs;
an invalid index aborts with failure before any step runs. -/
def placeToken (envs : ℕ → Env) (thr : ℚ) (budget : ℕ) (cell_num : ℤ)
    (center_x center_y cell_side hover_z : ℚ) : Bool × List Ev :=
  match cellPose cell_num center_x center_y cell_side with
  | Except.error _ => (false, [])
  | Except.ok p => runSteps envs thr budget (placeTokenSteps (withZ p hover_z) p) 0

/-! Helper lemmas shared by the claim theorems. -/

theorem equalTwoDP_comm (x y : ℚ) : equalTwoDP x y = equalTwoDP y x := by
  unfold equalTwoDP
  exact decide_eq_decide.mpr ⟨Eq.symm, Eq.symm⟩

theorem equalTwoDP_refl (x : ℚ) : equalTwoDP x x = true := by
  simp [equalTwoDP]

theorem pollAux_eq_none (pred : ℕ → Bool) (fuel t : ℕ)
    (h : ∀ s, t ≤ s → s < t + fuel → pred s = false) :
    pollAux pred fuel t = none := by
  induction fuel generalizing t with
  | zero => rfl
  | succ n ih =>
      have hp : pred t = false := h t le_rfl (by omega)
      simp only [pollAux, hp, Bool.false_eq_true, if_false]
      exact ih (t + 1) fun s hs1 hs2 => h s (by omega) (by omega)

theorem pollAux_first (pred : ℕ → Bool) (fuel t t0 : ℕ)
    (hlo : t ≤ t0) (hhi : t0 < t + fuel)
    (hmin : ∀ s, t ≤ s → s < t0 → pred s = false)
    (ht0 : pred t0 = true) :
    pollAux pred fuel t = some t0 := by
  induction fuel generalizing t with
  | zero => omega
  | succ n ih =>
      by_cases heq : t = t0
      · subst heq
        simp [pollAux, ht0]
      · have hp : pred t = false := hmin t le_rfl (by omega)
        simp only [pollAux, hp, Bool.false_eq_true, if_false]
        exact ih (t + 1) (by omega) (by omega)
          fun s hs1 hs2 => hmin s (by omega) hs2

theorem pollAux_isSome (pred : ℕ → Bool) (fuel t t0 : ℕ)
    (hlo : t ≤ t0) (hhi : t0 < t + fuel) (ht0 : pred t0 = true) :
    ∃ u, pollAux pred fuel t = some u := by
  induction fuel generalizing t with
  | zero => omega
  | succ n ih =>
      by_cases hp : pred t = true
      · exact ⟨t, by simp [pollAux, hp]⟩
      · simp only [pollAux, hp, if_false]
        have hne : t ≠ t0 := fun he => hp (he ▸ ht0)
        exact ih (t + 1) (by omega) (by omega)

theorem applySamples_append_last (st : IRState) (ms : List RangeMsg)
    (m : RangeMsg) : applySamples st (ms ++ [m]) = some m := by
  simp [applySamples, List.foldl_append, onRangeSample]

/-- Pose used as a concrete all-zero input in witnesses. -/
def zeroPose : Pose := ⟨0, 0, 0, 0, 0, 0, 0⟩

/-- Requested pose of the C1 counterexample: x component 0.004. -/
def cexReqPose : Pose := ⟨1/250, 0, 0, 0, 0, 0, 0⟩

/-- Measured pose of the C1 counterexample: x component 0.006. -/
def cexCurrPose : Pose := ⟨3/500, 0, 0, 0, 0, 0, 0⟩

/-- Claim C1, counterexample.  The claim identifies the `equalTwoDP`
comparison with "component-wise equality with tolerance 0.005", but the two
disagree: with requested x = 0.004 and measured x = 0.006 (all other
components equal), every component pair lies within 0.005 of each other, yet
0.004 rounds to 0.00 and 0.006 rounds to 0.01 at two decimal digits, so
`hasPoseCompleted` is false while the tolerance reading is true. -/
theorem hasPoseCompleted_tolerance_cex :
    poseMatchTol cexReqPose cexCurrPose = true ∧
    hasPoseCompleted cexReqPose cexCurrPose = false := by
  with_unfolding_all decide

/-- Claim C1, amended.  `hasPoseCompleted` is true iff every position and
orientation component of the measured pose round-equals the corresponding
component of the requested pose at 2 decimal digits (the `equalTwoDP`
comparison); the "tolerance 0.005" reading is dropped, as the
counterexample shows it is not equivalent to two-decimal round-equality. -/
theorem hasPoseCompleted_iff_roundEq (req curr : Pose) :
    hasPoseCompleted req curr = true ↔
      (round (100 * req.px) = round (100 * curr.px) ∧
       round (100 * req.py) = round (100 * curr.py) ∧
       round (100 * req.pz) = round (100 * curr.pz) ∧
       round (100 * req.ox) = round (100 * curr.ox) ∧
       round (100 * req.oy) = round (100 * curr.oy) ∧
       round (100 * req.oz) = round (100 * curr.oz) ∧
       round (100 * req.ow) = round (100 * curr.ow)) := by
  simp [hasPoseCompleted, equalTwoDP, and_assoc]

/-- Claim C9.  The pose-match predicate `posesMatch` is symmetric and
reflexive, and the per-component comparison `equalTwoDP` is likewise
symmetric and reflexive on all inputs. -/
theorem posesMatch_symm_refl :
    (∀ P M : Pose, posesMatch P M = posesMatch M P) ∧
    (∀ P : Pose, posesMatch P P = true) ∧
    (∀ x y : ℚ, equalTwoDP x y = equalTwoDP y x) ∧
    (∀ x : ℚ, equalTwoDP x x = true) := by
  refine ⟨?_, ?_, equalTwoDP_comm, equalTwoDP_refl⟩
  · intro P M
    simp only [posesMatch, hasPoseCompleted]
    rw [equalTwoDP_comm P.px M.px, equalTwoDP_comm P.py M.py,
        equalTwoDP_comm P.pz M.pz, equalTwoDP_comm P.ox M.ox,
        equalTwoDP_comm P.oy M.oy, equalTwoDP_comm P.oz M.oz,
        equalTwoDP_comm P.ow M.ow]
  · intro P
    simp [posesMatch, hasPoseCompleted, equalTwoDP_refl]

/-- Claim C10.  The requested pose is scoped to a single goal-reach call:
the `req_pose_stamped` member is overwritten with the new target at the
start of every goal-reach, so the outcome (and the resulting controller
state) of a goal-reach is identical whatever requested pose an earlier
goal-reach left behind. -/
theorem reachGoalSt_ignores_prior_request (st1 st2 : ArmState) (env : Env)
    (g : goalType) (p : Pose) (thr : ℚ) (budget : ℕ) :
    reachGoalSt st1 env g p thr budget = reachGoalSt st2 env g p thr budget :=
  rfl

/-- Claim C5.  When the IK service reports no solution for the requested
pose, the goal-reach terminates IK_FAILED (the `UnreachablePose` failure)
with no joint command issued (`publishMoveCommand` never invoked, zero poll
cycles), and a behavior whose step hits this failure emits only that
failure event of that step and reports failure to the caller. -/
theorem ik_no_solution_reports_failure :
    (∀ (env : Env) (g : goalType) (req : Pose) (thr : ℚ) (budget : ℕ),
      env.ik req = none →
      reachGoal env g req thr budget = ⟨ReachResult.IK_FAILED, 0, []⟩) ∧
    (∀ (envs : ℕ → Env) (thr : ℚ) (budget : ℕ) (hover grip_target : Pose),
      (envs 0).ik hover = none →
      pickUpToken envs thr budget hover grip_target
        = (false, [Ev.reach goalType.POSE hover ReachResult.IK_FAILED])) := by
  constructor
  · intro env g req thr budget h
    simp [reachGoal, h]
  · intro envs thr budget hover grip h
    have h1 : reachGoal (envs 0) goalType.POSE hover thr budget
        = ⟨ReachResult.IK_FAILED, 0, []⟩ := by
      simp [reachGoal, h]
    simp [pickUpToken, pickUpTokenSteps, runSteps, h1]

/-- Environment whose IK service reports no solution for every pose. -/
def wNoIKEnv : Env := ⟨fun _ => none, fun _ => zeroPose, fun _ => none⟩

/-- Witness for claim C5 at a concrete input. -/
theorem ik_no_solution_reports_failure_witness :
    wNoIKEnv.ik zeroPose = none ∧
    reachGoal wNoIKEnv goalType.POSE zeroPose 0 1
      = ⟨ReachResult.IK_FAILED, 0, []⟩ :=
  ⟨rfl, ik_no_solution_reports_failure.1 wNoIKEnv goalType.POSE zeroPose 0 1 rfl⟩

/-- Claim C2.  A COLLISION goal-reach terminates SATISFIED at the first poll
cycle in which the POSE convergence condition holds OR the proximity
tracker reports within-collision-threshold — whichever condition trips
first ends the poll; in particular a proximity trip alone suffices even
when the pose has not converged. -/
theorem collision_goal_satisfied_first_trip (env : Env) (req : Pose)
    (thr : ℚ) (budget : ℕ) (ja : JointAngles) (t : ℕ)
    (hik : env.ik req = some ja) (hlt : t < budget)
    (hmin : ∀ s, s < t →
      (hasPoseCompleted req (env.measured s) || hasCollided (env.ir s) thr)
        = false)
    (ht : (hasPoseCompleted req (env.measured t) || hasCollided (env.ir t) thr)
        = true) :
    reachGoal env goalType.COLLISION req thr budget
      = ⟨ReachResult.SATISFIED, t + 1, [ja]⟩ := by
  have hpred : pollAux (terminationPred goalType.COLLISION req thr env)
      budget 0 = some t :=
    pollAux_first _ budget 0 t (Nat.zero_le t) (by omega)
      (fun s _ hs2 => hmin s hs2) ht
  simp [reachGoal, hik, hpred]

/-- Pose whose x component is 1, never matching `zeroPose` at 2 decimals. -/
def wPoseOne : Pose := ⟨1, 0, 0, 0, 0, 0, 0⟩

/-- Environment whose measured pose never matches `zeroPose` while the
proximity sensor reports an in-bounds reading below the threshold from the
very first cycle. -/
def wCollideEnv : Env :=
  ⟨fun _ => some [1], fun _ => wPoseOne, fun _ => some ⟨1/100, 0, 2/5⟩⟩

/-- Witness for claim C2 at a concrete input: the proximity trip alone ends
the poll on the first cycle although the pose has not converged. -/
theorem collision_goal_satisfied_first_trip_witness :
    wCollideEnv.ik zeroPose = some [1] ∧
    hasPoseCompleted zeroPose (wCollideEnv.measured 0) = false ∧
    (hasPoseCompleted zeroPose (wCollideEnv.measured 0)
      || hasCollided (wCollideEnv.ir 0) (1/10)) = true ∧
    reachGoal wCollideEnv goalType.COLLISION zeroPose (1/10) 3
      = ⟨ReachResult.SATISFIED, 1, [[1]]⟩ :=
  ⟨rfl, by with_unfolding_all decide, by with_unfolding_all decide,
   collision_goal_satisfied_first_trip wCollideEnv zeroPose (1/10) 3 [1] 0
     rfl (by omega) (fun s hs => absurd hs (Nat.not_lt_zero s))
     (by with_unfolding_all decide)⟩

/-- Claim C3.  When the termination predicate never becomes true within the
budget, the goal-reach transitions to TIMED_OUT after exactly the configured
number of polling cycles — never fewer and never more — reporting a failed
reach with no automatic retry (the single joint command stays the only one
issued). -/
theorem reach_timeout_exact_budget (env : Env) (g : goalType) (req : Pose)
    (thr : ℚ) (budget : ℕ) (ja : JointAngles)
    (hik : env.ik req = some ja)
    (hnever : ∀ t, t < budget → terminationPred g req thr env t = false) :
    reachGoal env g req thr budget = ⟨ReachResult.TIMED_OUT, budget, [ja]⟩ := by
  have hpred : pollAux (terminationPred g req thr env) budget 0 = none :=
    pollAux_eq_none _ budget 0 fun s _ hs2 => hnever s (by omega)
  simp [reachGoal, hik, hpred]

/-- Environment with proximity permanently out of report (no sample ever
arrives) and a measured pose permanently unmatched with `zeroPose`. -/
def wTimeoutEnv : Env := ⟨fun _ => some [2], fun _ => wPoseOne, fun _ => none⟩

/-- Witness for claim C3 at a concrete input: budget 2, timed out after
exactly 2 cycles. -/
theorem reach_timeout_exact_budget_witness :
    wTimeoutEnv.ik zeroPose = some [2] ∧
    reachGoal wTimeoutEnv goalType.COLLISION zeroPose (1/10) 2
      = ⟨ReachResult.TIMED_OUT, 2, [[2]]⟩ :=
  ⟨rfl,
   reach_timeout_exact_budget wTimeoutEnv goalType.COLLISION zeroPose (1/10)
     2 [2] rfl (fun t _ => by
       show (hasPoseCompleted zeroPose wPoseOne || hasCollided none (1/10))
         = false
       with_unfolding_all decide)⟩

/-- Claim C4.  Behavior scripts abort on failure: whenever an initial run of
script steps has succeeded and the next Goal Reacher step ends in a non-SATISFIED
terminal state, the whole run returns failure and its event trace stops at
the failing step — the remaining steps (`rest`) are not executed and leave
no events, whatever they are.  The four behavior entry points `moveToRest`,
`moveToStandby`, `pickUpToken` and `placeToken` are each such a blocking
script run returning success/failure. -/
theorem runSteps_abort_on_failure (envs : ℕ → Env) (thr : ℚ) (budget : ℕ)
    (pre : List Step) :
    ∀ (g : goalType) (p : Pose) (rest : List Step) (i : ℕ),
    (runSteps envs thr budget pre i).1 = true →
    (reachGoal (envs (i + pre.length)) g p thr budget).result
      ≠ ReachResult.SATISFIED →
    runSteps envs thr budget (pre ++ Step.goal g p :: rest) i
      = (false, (runSteps envs thr budget pre i).2
          ++ [Ev.reach g p
               (reachGoal (envs (i + pre.length)) g p thr budget).result]) := by
  induction pre with
  | nil =>
      intro g p rest i _ hfail
      simp only [List.nil_append, List.length_nil, Nat.add_zero] at *
      simp [runSteps, if_neg hfail]
  | cons s pre ih =>
      intro g p rest i hpre hfail
      have harith : i + (s :: pre).length = (i + 1) + pre.length := by
        simp only [List.length_cons]
        omega
      rw [harith] at hfail
      cases s with
      | goal g0 p0 =>
          by_cases h0 : (reachGoal (envs i) g0 p0 thr budget).result
              = ReachResult.SATISFIED
          · have hpre1 : (runSteps envs thr budget pre (i + 1)).1 = true := by
              simpa [runSteps, h0] using hpre
            have hrec := ih g p rest (i + 1) hpre1 hfail
            have harith2 : i + (pre.length + 1) = i + 1 + pre.length := by
              omega
            simp [runSteps, h0, hrec, harith, harith2]
          · exfalso
            simp [runSteps, h0] at hpre
      | gripper a =>
          have hpre1 : (runSteps envs thr budget pre (i + 1)).1 = true := by
            simpa [runSteps] using hpre
          have hrec := ih g p rest (i + 1) hpre1 hfail
          have harith2 : i + (pre.length + 1) = i + 1 + pre.length := by
            omega
          simp [runSteps, hrec, harith, harith2]

/-- Family of environments (one per step) whose IK service never finds a
solution. -/
def wFailEnvs : ℕ → Env := fun _ => wNoIKEnv

/-- Witness for claim C4 at a concrete input: after a succeeding gripper
step, a goal step whose reach is not SATISFIED makes the run fail and drops
the remaining step. -/
theorem runSteps_abort_on_failure_witness :
    (runSteps wFailEnvs 0 1 [Step.gripper true] 0).1 = true ∧
    (reachGoal (wFailEnvs (0 + [Step.gripper true].length)) goalType.POSE
      zeroPose 0 1).result ≠ ReachResult.SATISFIED ∧
    runSteps wFailEnvs 0 1
        ([Step.gripper true] ++ Step.goal goalType.POSE zeroPose
          :: [Step.gripper false]) 0
      = (false, (runSteps wFailEnvs 0 1 [Step.gripper true] 0).2
          ++ [Ev.reach goalType.POSE zeroPose
               (reachGoal (wFailEnvs (0 + [Step.gripper true].length))
                 goalType.POSE zeroPose 0 1).result]) :=
  ⟨rfl, by decide,
   runSteps_abort_on_failure wFailEnvs 0 1 [Step.gripper true]
     goalType.POSE zeroPose [Step.gripper false] 0 rfl (by decide)⟩

/-- Claim C6.  `cellPose` is a pure deterministic function of
(cellIndex, centerX, centerY, cellSide): identical arguments give identical
poses, every cell index outside the valid board range 0..8 yields the
`InvalidCellIndex` failure rather than a pose, and every in-range index
yields a pose. -/
theorem cellPose_deterministic_and_range :
    (∀ (i j : ℤ) (cx1 cy1 s1 cx2 cy2 s2 : ℚ),
      i = j → cx1 = cx2 → cy1 = cy2 → s1 = s2 →
      cellPose i cx1 cy1 s1 = cellPose j cx2 cy2 s2) ∧
    (∀ (i : ℤ) (cx cy s : ℚ), ¬(0 ≤ i ∧ i < 9) →
      cellPose i cx cy s = Except.error GridError.InvalidCellIndex) ∧
    (∀ (i : ℤ) (cx cy s : ℚ), 0 ≤ i → i < 9 →
      ∃ p, cellPose i cx cy s = Except.ok p) := by
  refine ⟨?_, ?_, ?_⟩
  · intro i j cx1 cy1 s1 cx2 cy2 s2 h1 h2 h3 h4
    subst h1; subst h2; subst h3; subst h4
    rfl
  · intro i cx cy s h
    simp [cellPose, h]
  · intro i cx cy s h1 h2
    refine ⟨⟨cx + (((i % 3 : ℤ) : ℚ) - 1) * s,
             cy + (((i / 3 : ℤ) : ℚ) - 1) * s, PLACE_Z, 0, 0, 0, 1⟩, ?_⟩
    unfold cellPose
    rw [if_pos ⟨h1, h2⟩]

/-- Witness for claim C6 at concrete inputs: determinism at the center cell,
failure at index 9, a pose at index 4. -/
theorem cellPose_deterministic_and_range_witness :
    cellPose 4 0 0 1 = cellPose 4 0 0 1 ∧
    cellPose 9 1 2 3 = Except.error GridError.InvalidCellIndex ∧
    (∃ p, cellPose 4 (1/2) (1/2) (1/10) = Except.ok p) :=
  ⟨cellPose_deterministic_and_range.1 4 4 0 0 1 0 0 1 rfl rfl rfl rfl,
   cellPose_deterministic_and_range.2.1 9 1 2 3 (by decide),
   cellPose_deterministic_and_range.2.2 4 (1/2) (1/2) (1/10) (by decide)
     (by decide)⟩

/-- Claim C7.  In a pick-up-token run where the stack-contact proximity
threshold trips (before any pose convergence) during the descent and the
hover reaches succeed, the behavior completes successfully having issued
exactly three Goal Reacher invocations in the order hover (POSE), descend
(COLLISION), return-to-hover (POSE), with exactly one gripper activation
between the second and the third. -/
theorem pickUpToken_collision_scenario (envs : ℕ → Env) (thr : ℚ)
    (budget : ℕ) (hover grip_target : Pose) (ja : JointAngles)
    (h0 : (reachGoal (envs 0) goalType.POSE hover thr budget).result
      = ReachResult.SATISFIED)
    (hik : (envs 1).ik grip_target = some ja)
    (hcol : ∃ t, t < budget ∧ hasCollided ((envs 1).ir t) thr = true ∧
      ∀ s, s ≤ t →
        hasPoseCompleted grip_target ((envs 1).measured s) = false)
    (h3 : (reachGoal (envs 3) goalType.POSE hover thr budget).result
      = ReachResult.SATISFIED) :
    pickUpToken envs thr budget hover grip_target
      = (true, [Ev.reach goalType.POSE hover ReachResult.SATISFIED,
                Ev.reach goalType.COLLISION grip_target ReachResult.SATISFIED,
                Ev.gripper true,
                Ev.reach goalType.POSE hover ReachResult.SATISFIED]) := by
  obtain ⟨t, hlt, hc, _hp⟩ := hcol
  have hpred : terminationPred goalType.COLLISION grip_target thr (envs 1) t
      = true := by
    simp [terminationPred, hc]
  obtain ⟨u, hu⟩ := pollAux_isSome
    (terminationPred goalType.COLLISION grip_target thr (envs 1)) budget 0 t
    (Nat.zero_le t) (by omega) hpred
  have h1 : reachGoal (envs 1) goalType.COLLISION grip_target thr budget
      = ⟨ReachResult.SATISFIED, u + 1, [ja]⟩ := by
    simp [reachGoal, hik, hu]
  simp [pickUpToken, pickUpTokenSteps, runSteps, h0, h1, h3]

/-- Descend target of the C7 witness, one meter below the hover pose. -/
def wGripPose : Pose := ⟨0, 0, -1, 0, 0, 0, 0⟩

/-- Environment of the C7 witness: the measured pose stays at `zeroPose`
(so the descend target never pose-matches) while the proximity sensor
reports an in-bounds reading below the threshold from the first cycle. -/
def wPickEnv : Env :=
  ⟨fun _ => some [2], fun _ => zeroPose, fun _ => some ⟨1/100, 0, 2/5⟩⟩

/-- Witness for claim C7 at a concrete input. -/
theorem pickUpToken_collision_scenario_witness :
    (reachGoal wPickEnv goalType.POSE zeroPose (1/10) 2).result
      = ReachResult.SATISFIED ∧
    wPickEnv.ik wGripPose = some [2] ∧
    hasCollided (wPickEnv.ir 0) (1/10) = true ∧
    hasPoseCompleted wGripPose (wPickEnv.measured 0) = false ∧
    pickUpToken (fun _ => wPickEnv) (1/10) 2 zeroPose wGripPose
      = (true, [Ev.reach goalType.POSE zeroPose ReachResult.SATISFIED,
                Ev.reach goalType.COLLISION wGripPose ReachResult.SATISFIED,
                Ev.gripper true,
                Ev.reach goalType.POSE zeroPose ReachResult.SATISFIED]) :=
  ⟨by with_unfolding_all decide, rfl, by with_unfolding_all decide,
   by with_unfolding_all decide,
   pickUpToken_collision_scenario (fun _ => wPickEnv) (1/10) 2 zeroPose
     wGripPose [2] (by with_unfolding_all decide) rfl
     ⟨0, by omega, by with_unfolding_all decide,
      fun s _ => by
        show hasPoseCompleted wGripPose zeroPose = false
        with_unfolding_all decide⟩
     (by with_unfolding_all decide)⟩

/-- Claim C8.  The collision predicate reports no collision before any
proximity sample has arrived; after any sequence of samples ending with a
sample whose distance lies outside its own [min, max] validity bounds it
reports no collision (the reading is treated as no object in range); and it
reports collision exactly when the distance of the most recent sample is within
its bounds and below the configured threshold. -/
theorem hasCollided_latest_sample_spec :
    (∀ thr : ℚ, hasCollided (none : IRState) thr = false) ∧
    (∀ (st : IRState) (ms : List RangeMsg) (m : RangeMsg) (thr : ℚ),
      ¬(m.min_range ≤ m.range ∧ m.range ≤ m.max_range) →
      hasCollided (applySamples st (ms ++ [m])) thr = false) ∧
    (∀ (st : IRState) (ms : List RangeMsg) (m : RangeMsg) (thr : ℚ),
      hasCollided (applySamples st (ms ++ [m])) thr = true ↔
        (m.min_range ≤ m.range ∧ m.range ≤ m.max_range ∧ m.range < thr)) := by
  refine ⟨fun _ => rfl, ?_, ?_⟩
  · intro st ms m thr h
    rw [applySamples_append_last]
    rcases not_and_or.mp h with h1 | h1 <;> simp [hasCollided, h1]
  · intro st ms m thr
    rw [applySamples_append_last]
    simp [hasCollided, and_assoc]

/-- Witness for claim C8 at concrete inputs: empty state, an out-of-bounds
final sample (distance 0.5 above the max bound 0.4, treated as no object in
range even though it is below the threshold 1), and an in-bounds final
sample below the threshold 0.1. -/
theorem hasCollided_latest_sample_spec_witness :
    hasCollided (none : IRState) (1/10) = false ∧
    hasCollided (applySamples none ([⟨1/100, 0, 2/5⟩] ++ [⟨1/2, 0, 2/5⟩])) 1
      = false ∧
    (hasCollided (applySamples none ([] ++ [⟨1/100, 0, 2/5⟩])) (1/10) = true ↔
      ((0 : ℚ) ≤ 1/100 ∧ (1/100 : ℚ) ≤ 2/5 ∧ (1/100 : ℚ) < 1/10)) :=
  ⟨hasCollided_latest_sample_spec.1 (1/10),
   hasCollided_latest_sample_spec.2.1 none [⟨1/100, 0, 2/5⟩] ⟨1/2, 0, 2/5⟩ 1
     (by with_unfolding_all decide),
   hasCollided_latest_sample_spec.2.2 none [] ⟨1/100, 0, 2/5⟩ (1/10)⟩
